import Mathlib

/-!
Verification development for the Twitter-Like-Media-Downloader repository.

The repository is JavaScript; the definitions below are a shallow embedding
of the functions the claims talk about.  Mutable JS state (the five skip-ID
sets, the on-disk list files) is modelled by explicit state passing; a JS
Set of tweet-ID strings is modelled as a duplicate-free insertion-ordered
list; fallible operations return Option or carry explicit success flags.
-/

namespace TLMD

/-! ## JS Set model

A JS Set of strings, in insertion order.  JS Set.add is a no-op when the
element is already present; Set.has is exact string equality. -/

/-- Membership test of a JS Set, Set.has. -/
def hasId : List String → String → Bool
  | [], _ => false
  | a :: l, x => a == x || hasId l x

/-- Insertion into a JS Set, Set.add: appends unless already present. -/
def setAdd (l : List String) (x : String) : List String :=
  if hasId l x then l else l ++ [x]

/-! ## src/utils/error-handlers.js : determineErrorType

JS String.includes is substring containment.  The source computes
errorMsg = error.message or error, and runs the substring chain only
when errorMsg is a string. -/

/-- Does the haystack character list contain the needle as a contiguous
sublist?  (Helper for JS String.includes.) -/
def listContainsSub (needle : List Char) : List Char → Bool
  | [] => needle.isEmpty
  | c :: rest => needle.isPrefixOf (c :: rest) || listContainsSub needle rest

/-- JS String.includes: does s contain pat as a contiguous substring? -/
def strContains (s pat : String) : Bool :=
  listContainsSub pat.toList s.toList

/-- The substring-test chain of determineErrorType, applied to a string
message, in source order. -/
def classifyMessage (msg : String) : String :=
  if strContains msg "Tweet not found" then "not_found"
  else if strContains msg "sensitive content" then "sensitive_content"
  else if strContains msg "properties of undefined" then "parse"
  else if strContains msg "Authorization" then "api"
  else if strContains msg "rate limit" then "rate_limit"
  else if strContains msg "network error" || strContains msg "ENOTFOUND" ||
          strContains msg "ETIMEDOUT" || strContains msg "ECONNRESET" then "network"
  else "other"

/-- The argument of determineErrorType: either a raw string error, or an
object whose message field is a string (some) with the empty string kept
separate because JS treats it as falsy, or absent or not a string (none). -/
inductive ErrorArg where
  | str (s : String)
  | obj (message : Option String)
deriving DecidableEq

/-- determineErrorType from src/utils/error-handlers.js.  errorMsg is
error.message when that is truthy, else error itself; the substring chain
runs only when errorMsg is a string. -/
def determineErrorType : ErrorArg → String
  | .str s => classifyMessage s
  | .obj none => "other"
  | .obj (some m) => if m == "" then "other" else classifyMessage m

/-! ## src/utils/list-handlers.js (second document of file-utils.js):
the five in-memory skip-ID sets and their operations. -/

/-- The five module-level ID sets of list-handlers.js. -/
structure SkipLists where
  skipIds : List String
  notFoundIds : List String
  sensitiveIds : List String
  parseErrorIds : List String
  noMediaIds : List String
deriving DecidableEq

/-- addToSkipList: insert into skipIds (the synchronous file save is
modelled separately by ListStore.runAdds). -/
def addToSkipList (st : SkipLists) (id : String) : SkipLists :=
  { st with skipIds := setAdd st.skipIds id }

/-- addToNotFoundList: insert into notFoundIds. -/
def addToNotFoundList (st : SkipLists) (id : String) : SkipLists :=
  { st with notFoundIds := setAdd st.notFoundIds id }

/-- addToSensitiveList: insert into sensitiveIds. -/
def addToSensitiveList (st : SkipLists) (id : String) : SkipLists :=
  { st with sensitiveIds := setAdd st.sensitiveIds id }

/-- addToParseErrorList: insert into parseErrorIds. -/
def addToParseErrorList (st : SkipLists) (id : String) : SkipLists :=
  { st with parseErrorIds := setAdd st.parseErrorIds id }

/-- addToNoMediaList: insert into noMediaIds. -/
def addToNoMediaList (st : SkipLists) (id : String) : SkipLists :=
  { st with noMediaIds := setAdd st.noMediaIds id }

/-- isTweetInAnySkipList: membership in any of the five sets. -/
def isTweetInAnySkipList (st : SkipLists) (id : String) : Bool :=
  hasId st.skipIds id ||
  hasId st.notFoundIds id ||
  hasId st.sensitiveIds id ||
  hasId st.parseErrorIds id ||
  hasId st.noMediaIds id

/-- checkTweetInLists: per-list membership report, as the 5-tuple
(inSkipList, inNotFoundList, inSensitiveList, inParseErrorList,
inNoMediaList). -/
def checkTweetInLists (st : SkipLists) (id : String) :
    Bool × Bool × Bool × Bool × Bool :=
  (hasId st.skipIds id, hasId st.notFoundIds id, hasId st.sensitiveIds id,
   hasId st.parseErrorIds id, hasId st.noMediaIds id)

/-- shouldSkipTweet from src/index.js lines 288-293: it consults only four
of the five sets, leaving the generic skipIds set out. -/
def shouldSkipTweet (st : SkipLists) (id : String) : Bool :=
  hasId st.notFoundIds id ||
  hasId st.sensitiveIds id ||
  hasId st.noMediaIds id ||
  hasId st.parseErrorIds id

/-! ## Persistent ID set store (one category)

Each add function of list-handlers.js inserts into the in-memory set and
then synchronously rewrites the whole category file (saveSkipList,
saveNotFoundList, ...).  A failed write is caught and swallowed; the
in-memory set stays authoritative. -/

/-- One category: the in-memory set and the backing file (none while the
file does not exist). -/
structure ListStore where
  mem : List String
  disk : Option (List String)
deriving DecidableEq

/-- loadSkipLists for one category: a present file has each listed ID added
into the (initially empty) in-memory set; a missing file leaves it empty. -/
def loadList (file : Option (List String)) : List String :=
  (file.getD []).foldl setAdd []

/-- The store as it stands right after startup loading. -/
def loadStore (disk : Option (List String)) : ListStore :=
  ⟨loadList disk, disk⟩

/-- One add call: insert in memory, then synchronously serialize the whole
in-memory set to the file; a failed write (writeOk = false) is swallowed
and leaves the file as it was. -/
def addAndSave (st : ListStore) (id : String) (writeOk : Bool) : ListStore :=
  let mem := setAdd st.mem id
  ⟨mem, if writeOk then some mem else st.disk⟩

/-- A run's sequence of add calls against one category, each paired with
whether its disk write succeeded. -/
def runAdds (st : ListStore) : List (String × Bool) → ListStore
  | [] => st
  | (id, ok) :: rest => runAdds (addAndSave st id ok) rest

/-! ## Batch drivers: the per-item decision (src/index.js and the
part_002 driver)

Both drivers first consult the skip sets, then the downloaded-state
scanner sets, and only in the remaining case invoke processTweetMedia
(which is where any network fetch can happen). -/

/-- The classification a driver gives one archive item. -/
inductive ItemAction where
  | skipListed
  | alreadyDownloaded
  | process
deriving DecidableEq

/-- The per-item decision of the src/index.js driver: it gates on
shouldSkipTweet (four sets), then on both artifacts being present, and
otherwise calls processTweetMedia. -/
def decideItemIndexJs (st : SkipLists) (mediaIds metadataIds : List String)
    (id : String) : ItemAction :=
  if shouldSkipTweet st id then .skipListed
  else if hasId mediaIds id && hasId metadataIds id then .alreadyDownloaded
  else .process

/-- The per-item decision of the part_002 driver: it gates on
isTweetInAnySkipList (all five sets), then on both artifacts being
present, and otherwise calls processTweetMedia. -/
def decideItemPart002 (st : SkipLists) (mediaIds metadataIds : List String)
    (id : String) : ItemAction :=
  if isTweetInAnySkipList st id then .skipListed
  else if hasId mediaIds id && hasId metadataIds id then .alreadyDownloaded
  else .process

/-! ## Fetch-retry client (twitter-api-service.js and part_002)

callTwitterAPI retries while retryCount is below MAX_RETRIES, sleeping
RETRY_DELAY between attempts; not_found, sensitive_content and parse
classifications are rethrown immediately without retrying.  We model the
scenario the claim quantifies over: every upstream attempt throws an
error of one fixed classification. -/

def MAX_RETRIES : Nat := 3

def RETRY_DELAY : Nat := 5000

def maxSpecialRetries : Nat := 2

/-- The classifications the callTwitterAPI switch rethrows immediately. -/
def isImmediateThrowType (t : String) : Bool :=
  t == "not_found" || t == "sensitive_content" || t == "parse"

/-- What one invocation of the retry client did: how many upstream
TwitterDL calls it made and which sleeps it performed, in order. -/
structure CallTrace where
  attempts : Nat
  sleeps : List Nat
deriving DecidableEq

/-- callTwitterAPI when every upstream attempt throws an error classified
as errType, indexed by the retries still available
(MAX_RETRIES - retryCount); it ends by rethrowing the error tagged with
errType. -/
def callTwitterAPIAllFail (errType : String) : Nat → CallTrace
  | 0 => ⟨1, []⟩
  | n + 1 =>
    if isImmediateThrowType errType then ⟨1, []⟩
    else
      let t := callTwitterAPIAllFail errType n
      ⟨t.attempts + 1, RETRY_DELAY :: t.sleeps⟩

/-- The failure half of the fetchTweetInfo result contract. -/
structure FetchResult where
  success : Bool
  errorType : Option String
deriving DecidableEq

/-- The plain fetchTweetInfo (twitter-api-service.js) when every upstream
attempt throws an error classified as errType: the catch block turns the
rethrown error into a failure result tagged with its errorType. -/
def fetchTweetInfoAllFail (errType : String) : FetchResult × CallTrace :=
  (⟨false, some errType⟩, callTwitterAPIAllFail errType MAX_RETRIES)

/-- The special-retry fetchTweetInfo of part_002 when every upstream
attempt throws an error classified as errType, indexed by the special
retries still available (maxSpecialRetries - specialRetryCount): its catch
block re-runs the whole attemptFetch, after a sleep of twice RETRY_DELAY,
while the classification is network or timeout and special retries
remain. -/
def fetchTweetInfoSpecialAllFail (errType : String) : Nat → FetchResult × CallTrace
  | 0 => (⟨false, some errType⟩, callTwitterAPIAllFail errType MAX_RETRIES)
  | n + 1 =>
    let inner := callTwitterAPIAllFail errType MAX_RETRIES
    if errType == "network" || errType == "timeout" then
      let rest := fetchTweetInfoSpecialAllFail errType n
      (rest.1, ⟨inner.attempts + rest.2.attempts,
                inner.sleeps ++ 2 * RETRY_DELAY :: rest.2.sleeps⟩)
    else
      (⟨false, some errType⟩, inner)

/-! ## Checkpoint resume (part_002 driver and re_index.js) -/

/-- The checkpoint fields the part_002 resume check reads. -/
structure SavedState where
  completedIndex : Nat
  totalItems : Nat
deriving DecidableEq

/-- The part_002 startup decision: resume from completedIndex exactly when
a checkpoint exists, its totalItems equals the likes-list length and its
completedIndex is below that length; otherwise start from 0. -/
def resumeIndexPart002 (saved : Option SavedState) (likesLen : Nat) : Nat :=
  match saved with
  | none => 0
  | some s =>
    if s.totalItems = likesLen ∧ s.completedIndex < likesLen then s.completedIndex
    else 0

/-- The re_index.js startup decision: start = state.index or 0.  The saved
state carries no totalItems field and nothing is validated against the
likes-list length. -/
def resumeIndexReIndex (stateIndex : Option Nat) : Nat :=
  match stateIndex with
  | none => 0
  | some i => i

/-! ## saveMetadata (src/utils/file-utils.js and
src/services/metadata-service.js)

The file system relevant to one call is abstracted to: does the metadata
file for this tweet already exist, and would a write succeed.  The written
payload records whether it was annotated with a downloadedAt timestamp. -/

/-- A metadata file write: the serialized tweet data, and whether a
downloadedAt timestamp annotation was added. -/
structure MetaWrite where
  data : String
  hasDownloadedAt : Bool
deriving DecidableEq

/-- saveMetadata from file-utils.js: returns the file name untouched when
the file already exists; otherwise writes the pretty-printed data as is
(no timestamp annotation) and returns the file name, or returns none when
the write throws (caught). -/
def saveMetadataFileUtils (tweetId data : String) (fileExists writeOk : Bool) :
    Option String × Option MetaWrite :=
  let fileName := tweetId ++ "-metadata.json"
  if fileExists then (some fileName, none)
  else if writeOk then (some fileName, some ⟨data, false⟩)
  else (none, none)

/-- saveMetadata from metadata-service.js: rejects missing arguments with
false, otherwise always writes the data annotated with a downloadedAt
timestamp (there is no existence check), returning true, or false when
the write throws (caught). -/
def saveMetadataService (tweetId data : String) (argsValid fileExists writeOk : Bool) :
    Bool × Option MetaWrite :=
  if !argsValid then (false, none)
  else if writeOk then (true, some ⟨data, true⟩)
  else (false, none)

/-! ## Media download (src/utils/download-utils.js downloadFile and
media-service.js downloadFileWithProgress)

A download scenario is abstracted to its externally visible outcome; the
model records whether the promise rejected and whether the destination
path exists on disk afterwards (assuming it did not exist before the
call). -/

/-- How the response body ended in downloadFile. -/
inductive StreamEnd where
  | ok
  | resError
  | writeError
deriving DecidableEq

/-- The outcome of the HTTP GET in downloadFile.  The timeout event can
fire before any response (partialWritten = false) or mid-stream after the
write stream has received data (partialWritten = true); its handler
rejects without unlinking.  Redirect statuses recurse into the same
function and are represented here by the final response. -/
inductive GetOutcome where
  | reqError
  | timeout (partialWritten : Bool)
  | response (status : Nat) (stream : StreamEnd)
deriving DecidableEq

/-- The observable after-state of one download call. -/
structure DlAfter where
  failed : Bool
  fileOnDisk : Bool
deriving DecidableEq

/-- downloadFile from download-utils.js: network errors and timeouts
reject as they are; a non-2xx status rejects before the write stream is
created; a response-stream or file-stream error unlinks the partial file
and then rejects; only the finish path resolves. -/
def downloadFile (o : GetOutcome) : DlAfter :=
  match o with
  | .reqError => ⟨true, false⟩
  | .timeout partialWritten => ⟨true, partialWritten⟩
  | .response status stream =>
    if status < 200 ∨ 400 ≤ status then ⟨true, false⟩
    else
      match stream with
      | .ok => ⟨false, true⟩
      | .resError => ⟨true, false⟩
      | .writeError => ⟨true, false⟩

/-- The outcome of the axios GET in downloadFileWithProgress: the request
itself throws (network error, non-2xx status, request timeout), or the
stream finishes, or the writer emits an error mid-stream. -/
inductive AxiosOutcome where
  | requestError
  | streamOk
  | writerError
deriving DecidableEq

/-- downloadFileWithProgress from media-service.js: the write stream is
created (the file comes into existence) before the request; the catch
around the awaited request ends the writer, unlinks the file and
rethrows; but a writer error after the response was obtained rejects the
returned promise directly, outside the catch, so no unlink runs. -/
def downloadFileWithProgress (o : AxiosOutcome) : DlAfter :=
  match o with
  | .requestError => ⟨true, false⟩
  | .streamOk => ⟨false, true⟩
  | .writerError => ⟨true, true⟩

/-! ## processTweetMedia, API-path tail (part_001 and
src/services/media-service.js)

Both files branch on the list of media URLs obtained for the tweet; each
URL download either succeeds or fails (dlOk, aligned position by
position).  The model returns the result object fields and which skip
lists the call adds the tweet ID to.  (On the empty-URL branch part_001
additionally rewrites an existing metadata file with an empty media
array; that touches no result field and no ID set and is not modelled.) -/

/-- Which of the five skip lists a call added the tweet ID to. -/
structure ListAdds where
  toSkip : Bool
  toNotFound : Bool
  toSensitive : Bool
  toParseError : Bool
  toNoMedia : Bool
deriving DecidableEq

/-- No list additions. -/
def noAdds : ListAdds := ⟨false, false, false, false, false⟩

/-- The part_001 result object: it carries the noMedia flag. -/
structure MediaResult where
  usedAPI : Bool
  downloadedFiles : List String
  savedMetadata : Bool
  noMedia : Bool
  error : Option String
  errorType : Option String
deriving DecidableEq

/-- The media-service.js result object: it has no noMedia field. -/
structure MediaResultMS where
  usedAPI : Bool
  downloadedFiles : List String
  savedMetadata : Bool
  error : Option String
  errorType : Option String
deriving DecidableEq

/-- The API-path tail of part_001's processTweetMedia: with media URLs it
saves metadata when absent and, when media is absent, downloads each URL,
counting failures; all downloads failing (for a nonempty list) sets
noMedia and adds to the no-media list.  With zero media URLs it sets
noMedia, leaves error null and adds the ID to the no-media list only. -/
def part001ApiPath (hasMetadata hasMedia : Bool)
    (mediaUrls : List String) (dlOk : List Bool) : MediaResult × ListAdds :=
  if mediaUrls.length > 0 then
    let savedMeta := !hasMetadata
    if !hasMedia then
      let pairs := mediaUrls.zip dlOk
      let files := (pairs.filter (·.2)).map (·.1)
      let errCount := (pairs.filter (fun p => !p.2)).length
      if errCount = mediaUrls.length ∧ mediaUrls.length > 0 then
        (⟨true, files, savedMeta, true, none, none⟩, { noAdds with toNoMedia := true })
      else
        (⟨true, files, savedMeta, false, none, none⟩, noAdds)
    else
      (⟨true, [], savedMeta, false, none, none⟩, noAdds)
  else
    (⟨true, [], false, true, none, none⟩, { noAdds with toNoMedia := true })

/-- The API-path tail of media-service.js's processTweetMedia: with media
URLs it behaves like part_001 minus the all-failed check; with zero media
URLs it adds the ID to the not-found list, and the result (which has no
noMedia field) keeps error null. -/
def mediaServiceApiPath (hasMetadata hasMedia : Bool)
    (mediaUrls : List String) (dlOk : List Bool) : MediaResultMS × ListAdds :=
  if mediaUrls.length > 0 then
    let savedMeta := !hasMetadata
    if !hasMedia then
      let pairs := mediaUrls.zip dlOk
      let files := (pairs.filter (·.2)).map (·.1)
      (⟨true, files, savedMeta, none, none⟩, noAdds)
    else
      (⟨true, [], savedMeta, none, none⟩, noAdds)
  else
    (⟨true, [], false, none, none⟩, { noAdds with toNotFound := true })

/-! ## processTweetMedia (part_000, the service built on fetchTweetInfo)
and the downloaded-state scanners -/

/-- Resolved tweet data, abstracted to its media entries. -/
structure TweetMeta where
  media : List String
deriving DecidableEq

/-- What fetchTweetInfo returned to part_000's processTweetMedia. -/
inductive FetchOutcome where
  | ok (meta : TweetMeta)
  | fail (errorType : String) (msg : String)
deriving DecidableEq

/-- The part_000 result object. -/
structure Part000Result where
  success : Bool
  downloadedFiles : List String
  savedMetadata : Bool
  errorType : Option String
  error : Option String
  usedAPI : Bool
deriving DecidableEq

/-- The externally visible effects of one part_000 processTweetMedia
call. -/
structure Part000Effects where
  calledFetch : Bool
  calledSaveMetadata : Bool
  attemptedMediaDownload : Bool
  adds : ListAdds
deriving DecidableEq

/-- The API branch of part_000's processTweetMedia: fetch; on success save
metadata when absent and download media when absent and present in the
data; on failure tag the result and route the ID to the matching list
(not_found, sensitive_content, parse, else the generic skip list). -/
def part000ApiBranch (hasMedia hasMetadata : Bool)
    (fetch : FetchOutcome) (apiFiles : List String) :
    Part000Result × Part000Effects :=
  match fetch with
  | .ok m =>
    let saved := !hasMetadata
    if !hasMedia ∧ m.media ≠ [] then
      (⟨apiFiles.length > 0, apiFiles, saved, none, none, true⟩,
       ⟨true, saved, true, noAdds⟩)
    else
      (⟨true, [], saved, none, none, true⟩, ⟨true, saved, false, noAdds⟩)
  | .fail t msg =>
    let adds : ListAdds :=
      if t == "not_found" then { noAdds with toNotFound := true }
      else if t == "sensitive_content" then { noAdds with toSensitive := true }
      else if t == "parse" then { noAdds with toParseError := true }
      else { noAdds with toSkip := true }
    (⟨false, [], false, some t, some msg, true⟩, ⟨true, false, false, adds⟩)

/-- part_000's processTweetMedia: when metadata is on disk and media is
not, it loads the metadata file and downloads from it without any fetch
or metadata save; if that file fails to load it falls back to the API
branch; every other shape goes to the API branch directly. -/
def processTweetMediaPart000 (hasMedia hasMetadata : Bool)
    (localMeta : Option TweetMeta) (localFiles : List String)
    (fetch : FetchOutcome) (apiFiles : List String) :
    Part000Result × Part000Effects :=
  if hasMetadata ∧ !hasMedia then
    match localMeta with
    | some _ =>
      (⟨localFiles.length > 0, localFiles, false, none, none, false⟩,
       ⟨false, false, true, noAdds⟩)
    | none => part000ApiBranch hasMedia hasMetadata fetch apiFiles
  else part000ApiBranch hasMedia hasMetadata fetch apiFiles

/-- The media-file pattern of file-utils.js getDownloadedIds: leading
digits, a hyphen, then at least one digit. -/
def matchMediaFile (f : String) : Option String :=
  let cs := f.toList
  let ds := cs.takeWhile (·.isDigit)
  match cs.dropWhile (·.isDigit) with
  | '-' :: c :: _ => if ds ≠ [] ∧ c.isDigit then some (String.mk ds) else none
  | _ => none

/-- The metadata-file pattern shared by both scanners: leading digits then
exactly the suffix -metadata.json. -/
def matchMetadataFile (f : String) : Option String :=
  let cs := f.toList
  let ds := cs.takeWhile (·.isDigit)
  if ds ≠ [] ∧ cs.dropWhile (·.isDigit) = "-metadata.json".toList then
    some (String.mk ds)
  else none

/-- getDownloadedIds from file-utils.js: one directory pass building the
separate media-ID and metadata-ID sets. -/
def getDownloadedIds (files : List String) : List String × List String :=
  files.foldl
    (fun acc f =>
      let acc1 := match matchMediaFile f with
        | some id => (setAdd acc.1 id, acc.2)
        | none => acc
      match matchMetadataFile f with
      | some id => (acc1.1, setAdd acc1.2 id)
      | none => acc1)
    ([], [])

/-- The first re_index.js pattern: leading digits then a hyphen, with no
constraint on what follows (so it also matches metadata file names). -/
def matchIdDash (f : String) : Option String :=
  let cs := f.toList
  let ds := cs.takeWhile (·.isDigit)
  match cs.dropWhile (·.isDigit) with
  | '-' :: _ => if ds ≠ [] then some (String.mk ds) else none
  | _ => none

/-- getDownloadedIds from re_index.js: a single combined set of every ID
matched by either pattern. -/
def getDownloadedIdsReIndex (files : List String) : List String :=
  files.foldl
    (fun acc f =>
      match (matchIdDash f).orElse (fun _ => matchMetadataFile f) with
      | some id => setAdd acc id
      | none => acc)
    []

/-- The re_index.js per-item gate: the item is skipped outright when its
ID is in the combined downloaded set or among the skip-map keys; only
otherwise does the full fetch-save-download sequence run. -/
def reIndexSkipsItem (doneIds skipKeys : List String) (id : String) : Bool :=
  hasId doneIds id || hasId skipKeys id

/-! ## Helper lemmas about the JS Set model -/

theorem hasId_append (l1 l2 : List String) (x : String) :
    hasId (l1 ++ l2) x = (hasId l1 x || hasId l2 x) := by
  induction l1 with
  | nil => simp [hasId]
  | cons a t ih => simp [hasId, ih, Bool.or_assoc]

theorem hasId_setAdd_self (l : List String) (x : String) :
    hasId (setAdd l x) x = true := by
  unfold setAdd
  split
  · assumption
  · simp [hasId_append, hasId]

theorem hasId_setAdd_of_hasId (l : List String) (x y : String)
    (h : hasId l y = true) : hasId (setAdd l x) y = true := by
  unfold setAdd
  split
  · exact h
  · simp [hasId_append, h]

theorem hasId_setAdd_ne (l : List String) (x y : String) (h : y ≠ x) :
    hasId (setAdd l x) y = hasId l y := by
  unfold setAdd
  split
  · rfl
  · simp [hasId_append, hasId, beq_iff_eq]
    exact fun hxy => absurd hxy.symm h

theorem setAdd_idem (l : List String) (x : String) :
    setAdd (setAdd l x) x = setAdd l x := by
  have h := hasId_setAdd_self l x
  unfold setAdd
  unfold setAdd at h
  split at h
  · simp_all
  · simp_all

theorem hasId_foldl_setAdd_mono (ids : List String) (l : List String) (y : String)
    (h : hasId l y = true) : hasId (ids.foldl setAdd l) y = true := by
  induction ids generalizing l with
  | nil => simpa using h
  | cons a t ih => exact ih _ (hasId_setAdd_of_hasId l a y h)

theorem hasId_foldl_setAdd_of_mem (ids : List String) (l : List String) (y : String)
    (h : y ∈ ids) : hasId (ids.foldl setAdd l) y = true := by
  induction ids generalizing l with
  | nil => cases h
  | cons a t ih =>
    rcases List.mem_cons.1 h with h1 | h2
    · subst h1
      exact hasId_foldl_setAdd_mono t _ y (hasId_setAdd_self l y)
    · exact ih _ h2

/-! ## Helper lemmas about the persistent store -/

theorem runAdds_append (st : ListStore) (l1 l2 : List (String × Bool)) :
    runAdds st (l1 ++ l2) = runAdds (runAdds st l1) l2 := by
  induction l1 generalizing st with
  | nil => rfl
  | cons p t ih => cases p with | mk id ok => simp [runAdds, ih]

theorem runAdds_mem_mono (ops : List (String × Bool)) (st : ListStore) (y : String)
    (h : hasId st.mem y = true) : hasId (runAdds st ops).mem y = true := by
  induction ops generalizing st with
  | nil => simpa using h
  | cons p t ih =>
    cases p with
    | mk id ok => exact ih _ (hasId_setAdd_of_hasId st.mem id y h)

theorem runAdds_ops_mem (ops : List (String × Bool)) (st : ListStore)
    (p : String × Bool) (hp : p ∈ ops) : hasId (runAdds st ops).mem p.1 = true := by
  induction ops generalizing st with
  | nil => cases hp
  | cons q t ih =>
    rcases List.mem_cons.1 hp with h1 | h2
    · subst h1
      cases p with
      | mk id ok => exact runAdds_mem_mono t _ id (hasId_setAdd_self st.mem id)
    · cases q with
      | mk id2 ok2 => exact ih _ h2

/-! ## Claim C6 -/

/-- Claim C6: every add on a persistent ID set inserts into the in-memory
set and then synchronously rewrites the whole backing file before
returning, so after an add call whose disk write succeeded the on-disk
file equals the in-memory set and therefore contains the just-added ID,
every ID added earlier in the run (even if an earlier write failed), and
every ID loaded from the file at startup. -/
theorem C6_persistent_add_durable (init : List String)
    (ops : List (String × Bool)) (id : String) :
    (runAdds (loadStore (some init)) (ops ++ [(id, true)])).disk =
      some (runAdds (loadStore (some init)) (ops ++ [(id, true)])).mem ∧
    hasId (runAdds (loadStore (some init)) (ops ++ [(id, true)])).mem id = true ∧
    (∀ x ∈ init, hasId (runAdds (loadStore (some init)) (ops ++ [(id, true)])).mem x = true) ∧
    (∀ p ∈ ops, hasId (runAdds (loadStore (some init)) (ops ++ [(id, true)])).mem p.1 = true) := by
  rw [runAdds_append]
  refine ⟨rfl, ?_, ?_, ?_⟩
  · exact hasId_setAdd_self _ id
  · intro x hx
    exact hasId_setAdd_of_hasId _ id x
      (runAdds_mem_mono ops _ x (hasId_foldl_setAdd_of_mem init [] x hx))
  · intro p hp
    exact hasId_setAdd_of_hasId _ id p.1 (runAdds_ops_mem ops _ p hp)

/-- Witness for C6 at a concrete startup file and add sequence. -/
theorem C6_persistent_add_durable_witness :
    (runAdds (loadStore (some ["10"])) ([("20", false)] ++ [("30", true)])).disk =
      some (runAdds (loadStore (some ["10"])) ([("20", false)] ++ [("30", true)])).mem ∧
    hasId (runAdds (loadStore (some ["10"])) ([("20", false)] ++ [("30", true)])).mem "30" = true :=
  ⟨(C6_persistent_add_durable ["10"] [("20", false)] "30").1,
   (C6_persistent_add_durable ["10"] [("20", false)] "30").2.1⟩

/-! ## Claim C10 -/

/-- Claim C10: after any of the five category add functions runs on a
tweet ID, isTweetInAnySkipList answers true for that ID; the per-list
membership of every other ID is unchanged by the add; and adding the same
ID to the same category twice leaves the in-memory state unchanged, so no
duplicate entries arise. -/
theorem C10_add_isolated_idempotent (st : SkipLists) (id x : String) (hx : x ≠ id) :
    (isTweetInAnySkipList (addToSkipList st id) id = true ∧
     isTweetInAnySkipList (addToNotFoundList st id) id = true ∧
     isTweetInAnySkipList (addToSensitiveList st id) id = true ∧
     isTweetInAnySkipList (addToParseErrorList st id) id = true ∧
     isTweetInAnySkipList (addToNoMediaList st id) id = true) ∧
    (checkTweetInLists (addToSkipList st id) x = checkTweetInLists st x ∧
     checkTweetInLists (addToNotFoundList st id) x = checkTweetInLists st x ∧
     checkTweetInLists (addToSensitiveList st id) x = checkTweetInLists st x ∧
     checkTweetInLists (addToParseErrorList st id) x = checkTweetInLists st x ∧
     checkTweetInLists (addToNoMediaList st id) x = checkTweetInLists st x) ∧
    (addToSkipList (addToSkipList st id) id = addToSkipList st id ∧
     addToNotFoundList (addToNotFoundList st id) id = addToNotFoundList st id ∧
     addToSensitiveList (addToSensitiveList st id) id = addToSensitiveList st id ∧
     addToParseErrorList (addToParseErrorList st id) id = addToParseErrorList st id ∧
     addToNoMediaList (addToNoMediaList st id) id = addToNoMediaList st id) := by
  refine ⟨⟨?_, ?_, ?_, ?_, ?_⟩, ⟨?_, ?_, ?_, ?_, ?_⟩, ⟨?_, ?_, ?_, ?_, ?_⟩⟩ <;>
    simp [isTweetInAnySkipList, checkTweetInLists, addToSkipList, addToNotFoundList,
      addToSensitiveList, addToParseErrorList, addToNoMediaList,
      hasId_setAdd_self, hasId_setAdd_ne _ _ _ hx, setAdd_idem]

/-- Witness for C10 at a concrete state and distinct IDs. -/
theorem C10_add_isolated_idempotent_witness :
    isTweetInAnySkipList (addToNotFoundList ⟨[], [], [], [], []⟩ "1") "1" = true ∧
    checkTweetInLists (addToNotFoundList ⟨[], [], [], [], []⟩ "1") "2" =
      checkTweetInLists ⟨[], [], [], [], []⟩ "2" :=
  ⟨(C10_add_isolated_idempotent ⟨[], [], [], [], []⟩ "1" "2" (by decide)).1.2.1,
   (C10_add_isolated_idempotent ⟨[], [], [], [], []⟩ "1" "2" (by decide)).2.1.2.1⟩

/-! ## Claim C9 -/

theorem classifyMessage_mem (s : String) :
    classifyMessage s ∈
      (["not_found", "sensitive_content", "parse", "api", "rate_limit",
        "network", "other"] : List String) := by
  unfold classifyMessage
  repeat' split
  all_goals decide

/-- Claim C9: determineErrorType is total over string errors and objects
with an optional string message, always answering one of the seven types;
the substring tests run in a fixed first-match-wins order, so a message
holding both the not-found and the rate-limit markers classifies as
not_found, and so on down the chain; inputs matching no pattern, and
objects without a usable string message, answer other. -/
theorem C9_determineErrorType_total_first_match :
    (∀ e : ErrorArg, determineErrorType e ∈
      (["not_found", "sensitive_content", "parse", "api", "rate_limit",
        "network", "other"] : List String)) ∧
    determineErrorType (.str "rate limit hit and Tweet not found") = "not_found" ∧
    determineErrorType (.str "sensitive content, properties of undefined") = "sensitive_content" ∧
    determineErrorType (.str "properties of undefined via Authorization") = "parse" ∧
    determineErrorType (.str "Authorization denied by rate limit") = "api" ∧
    determineErrorType (.str "rate limit network error") = "rate_limit" ∧
    determineErrorType (.str "socket ECONNRESET") = "network" ∧
    determineErrorType (.str "mystery failure") = "other" ∧
    determineErrorType (.obj none) = "other" ∧
    determineErrorType (.obj (some "")) = "other" := by
  refine ⟨?_, by decide, by decide, by decide, by decide, by decide, by decide,
    by decide, by decide, by decide⟩
  intro e
  match e with
  | .str s => exact classifyMessage_mem s
  | .obj none => decide
  | .obj (some m) =>
    simp only [determineErrorType]
    split
    · decide
    · exact classifyMessage_mem m

/-! ## Claim C1 -/

/-- Claim C1 counterexample: a tweet ID present only in the generic skip
set.  isTweetInAnySkipList answers true, yet the src/index.js driver gate
shouldSkipTweet does not consult skipIds, so the driver classifies the
item as process (invoking the Materializer) rather than as skipped. -/
theorem C1_counterexample :
    isTweetInAnySkipList (⟨["100"], [], [], [], []⟩ : SkipLists) "100" = true ∧
    decideItemIndexJs (⟨["100"], [], [], [], []⟩ : SkipLists) [] [] "100" =
      ItemAction.process ∧
    decideItemIndexJs (⟨["100"], [], [], [], []⟩ : SkipLists) [] [] "100" ≠
      ItemAction.skipListed := by decide

/-- Claim C1 (amended): the part_002 driver classifies as skipped every ID
in any of the five sets; the src/index.js driver does so exactly for the
four specific sets consulted by shouldSkipTweet (not-found, sensitive,
no-media, parse-error), an ID held only in the generic skip set being
processed instead; in both drivers an ID in notFoundIds is classified as
skipped, so the Materializer and any network fetch are not reached for
it. -/
theorem C1_amended_skip_gating (st : SkipLists)
    (mediaIds metadataIds : List String) (id : String) :
    (isTweetInAnySkipList st id = true →
      decideItemPart002 st mediaIds metadataIds id = ItemAction.skipListed) ∧
    (shouldSkipTweet st id = true →
      decideItemIndexJs st mediaIds metadataIds id = ItemAction.skipListed) ∧
    (hasId st.notFoundIds id = true →
      decideItemIndexJs st mediaIds metadataIds id = ItemAction.skipListed ∧
      decideItemPart002 st mediaIds metadataIds id = ItemAction.skipListed) := by
  refine ⟨?_, ?_, ?_⟩
  · intro h
    simp [decideItemPart002, h]
  · intro h
    simp [decideItemIndexJs, h]
  · intro h
    constructor
    · simp [decideItemIndexJs, shouldSkipTweet, h]
    · simp [decideItemPart002, isTweetInAnySkipList, h]

/-- Witness for C1 at a concrete state whose not-found set holds the
ID. -/
theorem C1_amended_skip_gating_witness :
    decideItemIndexJs (⟨[], ["42"], [], [], []⟩ : SkipLists) [] [] "42" =
      ItemAction.skipListed ∧
    decideItemPart002 (⟨[], ["42"], [], [], []⟩ : SkipLists) [] [] "42" =
      ItemAction.skipListed :=
  (C1_amended_skip_gating ⟨[], ["42"], [], [], []⟩ [] [] "42").2.2 (by decide)

/-! ## Claim C2 -/

theorem isImmediateThrowType_network : isImmediateThrowType "network" = false := by
  decide

theorem callTwitterAPIAllFail_network (n : Nat) :
    (callTwitterAPIAllFail "network" n).attempts = n + 1 ∧
    (callTwitterAPIAllFail "network" n).sleeps = List.replicate n RETRY_DELAY := by
  induction n with
  | zero => exact ⟨rfl, rfl⟩
  | succ k ih =>
    simp [callTwitterAPIAllFail, isImmediateThrowType_network, ih.1, ih.2,
      List.replicate_succ]

/-- Claim C2 counterexample: with every attempt failing as network, the
part_002 fetchTweetInfo (the cited special-retry variant) makes 12
upstream attempts in total, not MAX_RETRIES + 1 = 4: its catch block
re-runs the whole inner retry loop twice more for network errors. -/
theorem C2_counterexample :
    (fetchTweetInfoSpecialAllFail "network" maxSpecialRetries).2.attempts = 12 ∧
    MAX_RETRIES + 1 = 4 ∧
    (fetchTweetInfoSpecialAllFail "network" maxSpecialRetries).2.attempts ≠
      MAX_RETRIES + 1 := by decide

/-- Claim C2 (amended): one invocation of callTwitterAPI on all-network
failures makes exactly retriesLeft + 1 upstream attempts with RETRY_DELAY
sleeps between them, so the plain fetchTweetInfo makes MAX_RETRIES + 1 = 4
attempts and returns a failure tagged network; the part_002 special-retry
fetchTweetInfo instead makes (MAX_RETRIES + 1) * (maxSpecialRetries + 1)
= 12 attempts, with a doubled sleep between rounds, and also returns a
failure tagged network; neither variant ever reports success. -/
theorem C2_amended_retry_budget (retriesLeft : Nat) :
    (callTwitterAPIAllFail "network" retriesLeft).attempts = retriesLeft + 1 ∧
    (callTwitterAPIAllFail "network" retriesLeft).sleeps =
      List.replicate retriesLeft RETRY_DELAY ∧
    (fetchTweetInfoAllFail "network").2.attempts = MAX_RETRIES + 1 ∧
    (fetchTweetInfoAllFail "network").1 = ⟨false, some "network"⟩ ∧
    (fetchTweetInfoSpecialAllFail "network" maxSpecialRetries).1 =
      ⟨false, some "network"⟩ ∧
    (fetchTweetInfoSpecialAllFail "network" maxSpecialRetries).2.attempts =
      (MAX_RETRIES + 1) * (maxSpecialRetries + 1) := by
  refine ⟨(callTwitterAPIAllFail_network retriesLeft).1,
    (callTwitterAPIAllFail_network retriesLeft).2, by decide, by decide,
    by decide, by decide⟩

/-- Witness for C2 at the full retry budget. -/
theorem C2_amended_retry_budget_witness :
    (callTwitterAPIAllFail "network" MAX_RETRIES).attempts = MAX_RETRIES + 1 :=
  (C2_amended_retry_budget MAX_RETRIES).1

/-! ## Claim C3 -/

/-- Claim C3 counterexample: on a successfully resolved tweet with zero
extractable media URLs, the src/services/media-service.js variant adds
the ID to the not-found list, not to the no-media list, and its result
object has no noMedia field at all (error does stay null). -/
theorem C3_counterexample :
    (mediaServiceApiPath false false [] []).2.toNotFound = true ∧
    (mediaServiceApiPath false false [] []).2.toNoMedia = false ∧
    (mediaServiceApiPath false false [] []).1.error = none := by decide

/-- Claim C3 (amended): in the part_001 variant a tweet resolving with
zero extractable media URLs yields noMedia = true with error null and the
ID is added to the no-media list and to no other; the
src/services/media-service.js variant instead routes such an ID to the
not-found list and its result carries no noMedia flag. -/
theorem C3_amended_no_media_routing (hasMetadata hasMedia : Bool) :
    ((part001ApiPath hasMetadata hasMedia [] []).1.noMedia = true ∧
     (part001ApiPath hasMetadata hasMedia [] []).1.error = none ∧
     (part001ApiPath hasMetadata hasMedia [] []).2 =
       { noAdds with toNoMedia := true }) ∧
    ((mediaServiceApiPath hasMetadata hasMedia [] []).1.error = none ∧
     (mediaServiceApiPath hasMetadata hasMedia [] []).2 =
       { noAdds with toNotFound := true }) := by
  cases hasMetadata <;> cases hasMedia <;> decide

/-- Witness for C3 at concrete flags. -/
theorem C3_amended_no_media_routing_witness :
    (part001ApiPath false false [] []).1.noMedia = true :=
  (C3_amended_no_media_routing false false).1.1

/-! ## Claim C4 -/

/-- Claim C4 counterexample: a directory holding only the metadata file of
tweet 123.  The re_index.js scanner, whose first pattern also matches
metadata file names, reports the tweet as done, and the re_index driver
then skips it outright — no media-only download is attempted.  The
file-utils scanner on the same directory correctly reports metadata
present and media absent. -/
theorem C4_counterexample :
    getDownloadedIdsReIndex ["123-metadata.json"] = ["123"] ∧
    reIndexSkipsItem (getDownloadedIdsReIndex ["123-metadata.json"]) [] "123" = true ∧
    (getDownloadedIds ["123-metadata.json"]).1 = [] ∧
    (getDownloadedIds ["123-metadata.json"]).2 = ["123"] := by decide

/-- Claim C4 (amended): in the part_000 pipeline, a tweet with a readable
metadata file and no media file gets a media-only download from the local
metadata with no fetch and no metadata save; a tweet with media and no
metadata gets no media download, with metadata saved exactly when the
fetch succeeds; the re_index.js variant, however, treats any tweet with
any matching file (metadata included) as fully done and skips it, and a
metadata file that fails to load sends the part_000 pipeline back to the
API fetch. -/
theorem C4_amended_partial_routing (m meta2 : TweetMeta)
    (localFiles : List String) (fetch : FetchOutcome) (apiFiles : List String) :
    ((processTweetMediaPart000 false true (some m) localFiles fetch apiFiles).2.calledFetch
        = false ∧
     (processTweetMediaPart000 false true (some m) localFiles fetch apiFiles).2.calledSaveMetadata
        = false ∧
     (processTweetMediaPart000 false true (some m) localFiles fetch apiFiles).2.attemptedMediaDownload
        = true ∧
     (processTweetMediaPart000 false true (some m) localFiles fetch apiFiles).1.usedAPI
        = false) ∧
    ((processTweetMediaPart000 true false none localFiles fetch apiFiles).2.attemptedMediaDownload
        = false ∧
     (processTweetMediaPart000 true false none localFiles (.ok meta2) apiFiles).2.calledSaveMetadata
        = true) ∧
    (processTweetMediaPart000 false true none localFiles fetch apiFiles).2.calledFetch
        = true := by
  refine ⟨⟨?_, ?_, ?_, ?_⟩, ⟨?_, ?_⟩, ?_⟩
  case refine_1 => simp [processTweetMediaPart000]
  case refine_2 => simp [processTweetMediaPart000]
  case refine_3 => simp [processTweetMediaPart000]
  case refine_4 => simp [processTweetMediaPart000]
  case refine_5 =>
    cases fetch with
    | ok m3 => simp [processTweetMediaPart000, part000ApiBranch]
    | fail t msg => simp [processTweetMediaPart000, part000ApiBranch]
  case refine_6 => simp [processTweetMediaPart000, part000ApiBranch]
  case refine_7 =>
    cases fetch with
    | ok m3 =>
      by_cases hm : m3.media = [] <;>
        simp [processTweetMediaPart000, part000ApiBranch, hm]
    | fail t msg => simp [processTweetMediaPart000, part000ApiBranch]

/-- Witness for C4 at concrete inputs. -/
theorem C4_amended_partial_routing_witness :
    (processTweetMediaPart000 false true (some ⟨["u"]⟩) ["f"]
        (.fail "network" "boom") []).2.calledFetch = false ∧
    (processTweetMediaPart000 true false none []
        (.ok ⟨["u"]⟩) []).2.calledSaveMetadata = true :=
  ⟨(C4_amended_partial_routing ⟨["u"]⟩ ⟨["u"]⟩ ["f"] (.fail "network" "boom") []).1.1,
   (C4_amended_partial_routing ⟨["u"]⟩ ⟨["u"]⟩ [] (.fail "network" "boom") []).2.1.2⟩

/-! ## Claim C5 -/

/-- Claim C5 counterexample: in downloadFileWithProgress a write-stream
error after the response was obtained rejects the returned promise
outside the catch block, so the error propagates while the partially
written destination file is still on disk. -/
theorem C5_counterexample :
    (downloadFileWithProgress .writerError).failed = true ∧
    (downloadFileWithProgress .writerError).fileOnDisk = true := by decide

/-- Claim C5 (amended): downloadFile leaves no destination file behind on
any failure surfaced through its response handlers — non-2xx status,
response-stream error, or file-stream error all unlink before rejecting —
nor on a pre-response network error or pre-response timeout, and
downloadFileWithProgress deletes the file when the awaited request itself
throws; but a writer error in downloadFileWithProgress (and a downloadFile
timeout firing after partial data) rejects without deleting, so a partial
file can survive those two paths. -/
theorem C5_amended_cleanup (status : Nat) (s : StreamEnd) :
    ((downloadFile (.response status s)).failed = true →
      (downloadFile (.response status s)).fileOnDisk = false) ∧
    (downloadFile .reqError).fileOnDisk = false ∧
    (downloadFile (.timeout false)).fileOnDisk = false ∧
    (downloadFileWithProgress .requestError).failed = true ∧
    (downloadFileWithProgress .requestError).fileOnDisk = false ∧
    (downloadFile (.timeout true)).fileOnDisk = true ∧
    (downloadFileWithProgress .writerError).fileOnDisk = true := by
  refine ⟨?_, by decide, by decide, by decide, by decide, by decide, by decide⟩
  intro h
  simp only [downloadFile] at h ⊢
  split at h
  · simp_all
  · cases s <;> simp_all

/-- Witness for C5 at a concrete failing status. -/
theorem C5_amended_cleanup_witness :
    (downloadFile (.response 404 .ok)).fileOnDisk = false :=
  (C5_amended_cleanup 404 .ok).1 (by decide)

/-! ## Claim C7 -/

/-- Claim C7 counterexample: the re_index.js driver resumes from the saved
index with no totalItems validation at all — with a saved index of 5 it
starts at 5 even though the claim requires a start at 0 whenever the
checkpoint does not match the current likes-list length (the part_002
driver does return 0 for a mismatched checkpoint). -/
theorem C7_counterexample :
    resumeIndexPart002 (some ⟨5, 20⟩) 3 = 0 ∧
    resumeIndexReIndex (some 5) = 5 ∧
    resumeIndexReIndex (some 5) ≠ 0 := by decide

/-- Claim C7 (amended): the part_002 driver resumes from completedIndex
exactly when a checkpoint exists with totalItems equal to the likes-list
length and completedIndex below it, and starts from 0 with no checkpoint,
a totalItems mismatch, or a completedIndex at or past the length; the
re_index.js driver instead resumes unconditionally from the saved index
(0 when absent), validating nothing. -/
theorem C7_amended_resume (s : SavedState) (likesLen i : Nat) :
    resumeIndexPart002 none likesLen = 0 ∧
    (s.totalItems = likesLen → s.completedIndex < likesLen →
      resumeIndexPart002 (some s) likesLen = s.completedIndex) ∧
    (s.totalItems ≠ likesLen → resumeIndexPart002 (some s) likesLen = 0) ∧
    (likesLen ≤ s.completedIndex → resumeIndexPart002 (some s) likesLen = 0) ∧
    resumeIndexReIndex (some i) = i ∧
    resumeIndexReIndex none = 0 := by
  refine ⟨rfl, ?_, ?_, ?_, rfl, rfl⟩
  · intro h1 h2
    simp [resumeIndexPart002, h1, h2]
  · intro h
    simp [resumeIndexPart002, h]
  · intro h
    have : ¬ s.completedIndex < likesLen := Nat.not_lt.2 h
    simp [resumeIndexPart002, this]

/-- Witness for C7 at a concrete matching checkpoint. -/
theorem C7_amended_resume_witness :
    resumeIndexPart002 (some ⟨7, 10⟩) 10 = 7 :=
  (C7_amended_resume ⟨7, 10⟩ 10 0).2.1 (by decide) (by decide)

/-! ## Claim C8 -/

/-- Claim C8 counterexample: the metadata-service saveMetadata writes the
file even when it already exists (there is no existence check), and the
file-utils saveMetadata writes the data without any downloadedAt
timestamp annotation — so no single saveMetadata satisfies the claimed
conjunction of exists-no-op, timestamped write, and false-on-failure. -/
theorem C8_counterexample :
    (saveMetadataService "1" "d" true true true).2 = some ⟨"d", true⟩ ∧
    (saveMetadataService "1" "d" true true true).1 = true ∧
    (saveMetadataFileUtils "1" "d" false true).2 = some ⟨"d", false⟩ := by decide

/-- Claim C8 (amended): the file-utils saveMetadata returns the file name
without writing when the file exists, otherwise writes pretty-printed
JSON without a timestamp annotation and returns the file name, or returns
null on a caught write failure; the metadata-service saveMetadata always
writes (file present or not) with the downloadedAt annotation, returning
false on a caught write failure; both return in every case rather than
throwing. -/
theorem C8_amended_saveMetadata (tweetId data : String) (fileExists : Bool) :
    saveMetadataFileUtils tweetId data true true =
      (some (tweetId ++ "-metadata.json"), none) ∧
    saveMetadataFileUtils tweetId data true false =
      (some (tweetId ++ "-metadata.json"), none) ∧
    saveMetadataFileUtils tweetId data false true =
      (some (tweetId ++ "-metadata.json"), some ⟨data, false⟩) ∧
    saveMetadataFileUtils tweetId data false false = (none, none) ∧
    saveMetadataService tweetId data true fileExists true =
      (true, some ⟨data, true⟩) ∧
    saveMetadataService tweetId data true fileExists false = (false, none) := by
  cases fileExists <;>
    simp [saveMetadataFileUtils, saveMetadataService]

/-- Witness for C8 at concrete arguments. -/
theorem C8_amended_saveMetadata_witness :
    saveMetadataFileUtils "9" "d" true true = (some "9-metadata.json", none) :=
  (C8_amended_saveMetadata "9" "d" true).1

end TLMD
